import Mathlib

set_option autoImplicit false

namespace Telebot

/- Shallow embedding of src/telegram/ext/_jobqueue.py.

   Instants are measured in seconds.  A timezone is a fixed UTC offset in
   seconds: once a datetime is localized by pytz (or produced by
   datetime.now(tz)) it carries a fixed offset, and aware datetimes are
   compared through their UTC instants.  An aware datetime is a wall-clock
   value together with that offset; a naive one has no offset. -/

abbrev Tz := Int

/-- Python datetime.time: seconds since midnight plus an optional tzinfo. -/
structure PyTime where
  secs : Nat
  tzinfo : Option Tz
  deriving DecidableEq

/-- Python datetime.datetime: wall-clock seconds since the epoch as read in
    its own timezone, plus an optional tzinfo (none means naive). -/
structure PyDateTime where
  wall : Int
  tzinfo : Option Tz
  deriving DecidableEq

/-- UTC instant of a datetime (wall minus offset; naive treated as zero
    offset only where the code guarantees awareness). -/
def PyDateTime.utc (d : PyDateTime) : Int :=
  d.wall - d.tzinfo.getD 0

/-- Python comparison a < b on datetimes: aware/aware compares UTC
    instants, naive/naive compares wall clocks, mixed raises TypeError. -/
def pyLt (a b : PyDateTime) : Except String Bool :=
  match a.tzinfo, b.tzinfo with
  | some ta, some tb => .ok (a.wall - ta < b.wall - tb)
  | none, none => .ok (a.wall < b.wall)
  | _, _ => .error "TypeError: cannot compare naive and aware datetimes"

/-- Calendar date of a datetime, as a day number (floor of wall / 86400). -/
def PyDateTime.dateOf (d : PyDateTime) : Int := Int.fdiv d.wall 86400

/-- Time of day of a datetime, in seconds past midnight. -/
def PyDateTime.timeOfDay (d : PyDateTime) : Int := d.wall % 86400

/-- Adding a timedelta of s seconds: the offset is fixed, so the wall
    clock and the UTC instant both advance by s. -/
def PyDateTime.addSecs (d : PyDateTime) (s : Int) : PyDateTime :=
  { d with wall := d.wall + s }

/-- Heterogeneous time inputs accepted by JobQueue._parse_time_input:
    int/float seconds, datetime.timedelta, datetime.time, datetime.datetime. -/
inductive TimeInput where
  | secs (s : Int)
  | delta (s : Int)
  | tod (t : PyTime)
  | dt (d : PyDateTime)
  deriving DecidableEq

/-- Embedding of JobQueue._tz_now: datetime.datetime.now(scheduler.timezone). -/
def tz_now (tzq : Tz) (now_utc : Int) : PyDateTime :=
  { wall := now_utc + tzq, tzinfo := some tzq }

/-- Embedding of JobQueue._parse_time_input on a non-null input.  tzq is
    the scheduler's configured timezone, now_utc the current UTC instant.
    The time-of-day branch combines with today's date read in the input's
    own timezone (else the scheduler's), localizes a naive result to the
    scheduler's timezone, and with shift_day advances one day when the
    instant is not after now. -/
def parse_time_input1 (tzq : Tz) (now_utc : Int) (t : TimeInput) (shift_day : Bool) :
    PyDateTime :=
  match t with
  | .secs s => (tz_now tzq now_utc).addSecs s
  | .delta s => (tz_now tzq now_utc).addSecs s
  | .tod t =>
    let tz := t.tzinfo.getD tzq
    let date_time : PyDateTime :=
      { wall := (Int.fdiv (now_utc + tz) 86400) * 86400 + (t.secs : Int), tzinfo := t.tzinfo }
    let date_time :=
      if date_time.tzinfo.isNone then { date_time with tzinfo := some tzq } else date_time
    if shift_day && decide (date_time.utc ≤ now_utc) then date_time.addSecs 86400
    else date_time
  | .dt d => d

/-- Embedding of JobQueue._parse_time_input: None propagates to None. -/
def parse_time_input (tzq : Tz) (now_utc : Int) (t : Option TimeInput) (shift_day : Bool) :
    Option PyDateTime :=
  t.map (fun ti => parse_time_input1 tzq now_utc ti shift_day)

/-- Handle into the timer engine's entry table (apscheduler.job.Job); the
    claims only depend on its entry id. -/
structure APSJobH where
  id : Nat
  deriving DecidableEq

/-- Embedding of telegram.ext.Job: callback, opaque context payload, name,
    the two state flags, and the optional engine handle.  P is the context
    payload type, C the execution-context type handed to the callback, E
    the exception type. -/
structure Job (P C E : Type) where
  callback : C → Except E Unit
  context : P
  name : String
  _removed : Bool
  _enabled : Bool
  job : Option APSJobH

/-- Embedding of Job.__init__: the name defaults to the callback's own
    __name__ (passed separately as cbName, since Lean functions carry no
    name); both flags start false. -/
def Job.init {P C E : Type} (callback : C → Except E Unit) (context : P)
    (name : Option String) (cbName : String) (job : Option APSJobH) : Job P C E :=
  { callback := callback, context := context, name := name.getD cbName,
    _removed := false, _enabled := false, job := job }

/-- Host (telegram.ext.Dispatcher) as seen from this module: the execution
    context builder, the log of dispatch_error reports (each error paired
    with the job attached to it), and the number of update_persistence
    calls. -/
structure Dispatcher (P C E : Type) where
  from_job : Job P C E → C
  errors : List (E × Job P C E)
  persistence_updates : Nat

/-- Embedding of dispatcher.dispatch_error(None, exc, job=job): appends
    exactly one report, with the job attached. -/
def Dispatcher.dispatch_error {P C E : Type} (d : Dispatcher P C E) (exc : E)
    (j : Job P C E) : Dispatcher P C E :=
  { d with errors := d.errors ++ [(exc, j)] }

/-- Embedding of dispatcher.update_persistence(None). -/
def Dispatcher.update_persistence {P C E : Type} (d : Dispatcher P C E) :
    Dispatcher P C E :=
  { d with persistence_updates := d.persistence_updates + 1 }

/-- Embedding of Job.run: try/except/finally around the callback, which
    receives the context built from the job by the host.  The second
    component is the exception propagated to the caller of run, if any. -/
def Job.run {P C E : Type} (j : Job P C E) (d : Dispatcher P C E) :
    Dispatcher P C E × Option E :=
  match j.callback (d.from_job j) with
  | .ok _ => (d.update_persistence, none)
  | .error exc => ((d.dispatch_error exc j).update_persistence, none)

/-- One request from a Job to the timer engine, identified by entry id. -/
inductive EngineCall where
  | resume (hid : Nat)
  | pause (hid : Nat)
  | remove (hid : Nat)
  deriving DecidableEq

/-- Embedding of the Job.enabled setter: resume on true, pause on false,
    and the stored flag is assigned only after the engine request
    returned.  Returns the post-state, the engine calls issued, and the
    exception propagated to the caller, if any. -/
def Job.set_enabled {P C E : Type} (j : Job P C E) (status : Bool)
    (engine : EngineCall → Except String Unit) :
    Job P C E × List EngineCall × Option String :=
  match j.job with
  | none => (j, [], some "AttributeError: NoneType has no attribute resume or pause")
  | some h =>
    let call := if status then EngineCall.resume h.id else EngineCall.pause h.id
    match engine call with
    | .error e => (j, [call], some e)
    | .ok _ => ({ j with _enabled := status }, [call], none)

/-- Embedding of Job.schedule_removal: self.job.remove() first, and only
    then the assignment self._removed = True. -/
def Job.schedule_removal {P C E : Type} (j : Job P C E)
    (engine : EngineCall → Except String Unit) :
    Job P C E × List EngineCall × Option String :=
  match j.job with
  | none => (j, [], some "AttributeError: NoneType has no attribute remove")
  | some h =>
    match engine (EngineCall.remove h.id) with
    | .error e => (j, [EngineCall.remove h.id], some e)
    | .ok _ => ({ j with _removed := true }, [EngineCall.remove h.id], none)

/-- Attribute read of id through Job.__getattr__: delegated to the engine
    handle, AttributeError when absent on both layers. -/
def Job.idAttr {P C E : Type} (j : Job P C E) : Except String Nat :=
  match j.job with
  | some h => .ok h.id
  | none =>
    .error "AttributeError: Neither telegram.ext.Job nor apscheduler.job.Job has attribute id"

/-- Embedding of Job.__eq__ between two wrappers of the same class:
    compares the delegated ids. -/
def Job.eqExc {P C E : Type} (a b : Job P C E) : Except String Bool := do
  let ia ← a.idAttr
  let ib ← b.idAttr
  return ia == ib

/-- Embedding of Job.__lt__. -/
def Job.ltB {P C E : Type} (_a _b : Job P C E) : Bool := false

/-- Operations that can touch a Job's own state after construction.
    Job.run mutates only the dispatcher and the JobQueue methods build
    fresh jobs, so the flag-mutating operations are exactly these two. -/
inductive JobOp where
  | setEnabled (status : Bool) (engine : EngineCall → Except String Unit)
  | scheduleRemoval (engine : EngineCall → Except String Unit)

/-- Post-state of a Job after one operation. -/
def Job.applyOp {P C E : Type} (j : Job P C E) : JobOp → Job P C E
  | .setEnabled s eng => (j.set_enabled s eng).1
  | .scheduleRemoval eng => (j.schedule_removal eng).1

/-- Weak reference: dead once the referent was deallocated. -/
structure WeakRef (D : Type) where
  deref : Option D

/-- Embedding of JobQueue: the scheduler's configured timezone plus the
    weak host back-reference (none before set_dispatcher was called). -/
structure JobQueue (D : Type) where
  tz : Tz
  _dispatcher : Option (WeakRef D)

/-- Embedding of the JobQueue.dispatcher property. -/
def JobQueue.dispatcher {D : Type} (q : JobQueue D) : Except String D :=
  match q._dispatcher with
  | none => .error "RuntimeError: No dispatcher was set for this JobQueue."
  | some ref =>
    match ref.deref with
    | some d => .ok d
    | none => .error "RuntimeError: The dispatcher instance is no longer alive."

/-- Parameters run_once hands to scheduler.add_job for its date trigger:
    run_date, the timezone argument (run_date.tzinfo or the scheduler's),
    the name, and the dispatcher passed as the sole runtime argument. -/
structure DateEntry (D : Type) where
  run_date : PyDateTime
  timezone : Tz
  name : String
  dispatcher_arg : D

/-- Embedding of JobQueue.run_once: builds the Job, resolves when with
    shift_day true, reads the dispatcher property (which may raise), and
    registers the date-trigger entry; hid is the id the scheduler assigns
    to the new entry. -/
def JobQueue.run_once {D P C E : Type} (q : JobQueue D) (now_utc : Int) (hid : Nat)
    (callback : C → Except E Unit) (cbName : String) (when : TimeInput)
    (context : P) (name : Option String) :
    Except String (Job P C E × DateEntry D) :=
  let name := name.getD cbName
  let job : Job P C E := Job.init callback context (some name) cbName none
  let date_time := parse_time_input1 q.tz now_utc when true
  match q.dispatcher with
  | .error e => .error e
  | .ok disp =>
    .ok ({ job with job := some { id := hid } },
      { run_date := date_time, timezone := date_time.tzinfo.getD q.tz,
        name := name, dispatcher_arg := disp })

/-- Interval argument of run_repeating: int/float seconds or a timedelta. -/
inductive IntervalSpec where
  | secs (s : Int)
  | delta (s : Int)
  deriving DecidableEq

/-- Seconds represented by an interval argument (timedelta.total_seconds). -/
def IntervalSpec.total_seconds : IntervalSpec → Int
  | .secs s => s
  | .delta s => s

/-- Parameters run_repeating hands to scheduler.add_job for its interval
    trigger. -/
structure IntervalEntry (D : Type) where
  start_date : Option PyDateTime
  end_date : Option PyDateTime
  seconds : Int
  name : String
  dispatcher_arg : D

/-- Embedding of the validation in run_repeating: the statement
    if dt_last and dt_first and dt_last < dt_first then raise ValueError.
    Aware datetimes are always truthy, so the truthiness tests amount to
    None-tests; the comparison itself may raise TypeError on a
    naive/aware mix. -/
def checkLastFirst (dt_first dt_last : Option PyDateTime) : Except String Unit :=
  match dt_last, dt_first with
  | some dl, some df =>
    match pyLt dl df with
    | .error e => .error e
    | .ok true => .error "ValueError: last must not be before first!"
    | .ok false => .ok ()
  | _, _ => .ok ()

/-- Embedding of JobQueue.run_repeating: builds the Job, resolves first
    and last (shift_day defaulting to false), validates the bounds, reads
    the dispatcher property, and registers the interval-trigger entry. -/
def JobQueue.run_repeating {D P C E : Type} (q : JobQueue D) (now_utc : Int) (hid : Nat)
    (callback : C → Except E Unit) (cbName : String) (interval : IntervalSpec)
    (first last : Option TimeInput) (context : P) (name : Option String) :
    Except String (Job P C E × IntervalEntry D) :=
  let name := name.getD cbName
  let job : Job P C E := Job.init callback context (some name) cbName none
  let dt_first := parse_time_input q.tz now_utc first false
  let dt_last := parse_time_input q.tz now_utc last false
  match checkLastFirst dt_first dt_last with
  | .error e => .error e
  | .ok _ =>
    match q.dispatcher with
    | .error e => .error e
    | .ok disp =>
      .ok ({ job with job := some { id := hid } },
        { start_date := dt_first, end_date := dt_last,
          seconds := interval.total_seconds, name := name, dispatcher_arg := disp })

/-- Modelled from the spec: the timer engine's interval trigger (an
    external collaborator, not part of src/) defaults the first occurrence
    to now + interval when no start bound is supplied, so the resolved
    first instant of run_repeating with first unspecified is
    now + interval in the queue's timezone. -/
def resolvedFirstWithDefault (tzq : Tz) (now_utc : Int) (interval : IntervalSpec)
    (first : Option TimeInput) : PyDateTime :=
  (parse_time_input tzq now_utc first false).getD
    ((tz_now tzq now_utc).addSecs interval.total_seconds)

/-- Spec-side description used by claim C3: the time-of-day input combined
    with today's date read in the input's own timezone if present, else
    the queue's default timezone (after localization both cases carry that
    zone). -/
def specCombinedTod (tzq : Tz) (now_utc : Int) (t : PyTime) : PyDateTime :=
  { wall := (Int.fdiv (now_utc + t.tzinfo.getD tzq) 86400) * 86400 + (t.secs : Int),
    tzinfo := some (t.tzinfo.getD tzq) }

/-- Concrete job whose callback always raises the exception 7. -/
def failJob : Job Unit Unit Nat :=
  Job.init (fun _ => Except.error 7) () (some "failing") "cb" (some { id := 1 })

/-- Concrete host with an empty error log and no persistence updates yet. -/
def emptyDispatcher : Dispatcher Unit Unit Nat :=
  { from_job := fun _ => (), errors := [], persistence_updates := 0 }

/-- Concrete job around handle id 5, one callback and name. -/
def jobA : Job Unit Unit Unit :=
  Job.init (fun _ => Except.ok ()) () (some "a") "cba" (some { id := 5 })

/-- Concrete job around the same handle id 5, different name and callback
    name. -/
def jobB : Job Unit Unit Unit :=
  Job.init (fun _ => Except.ok ()) () (some "b") "cbb" (some { id := 5 })

/-- Concrete queue in UTC whose dispatcher reference is set and alive. -/
def q0 : JobQueue Nat := { tz := 0, _dispatcher := some { deref := some 0 } }

/-- Success test on a fallible result: the call returned without raising. -/
def exceptIsOk {E A : Type} : Except E A → Bool
  | .ok _ => true
  | .error _ => false

/- Helper lemmas shared by the claim theorems. -/

/-- Advancing a datetime by one day advances its calendar date by one. -/
theorem dateOf_addDay (d : PyDateTime) : (d.addSecs 86400).dateOf = d.dateOf + 1 := by
  show Int.fdiv (d.wall + 86400) 86400 = Int.fdiv d.wall 86400 + 1
  rw [Int.fdiv_eq_ediv _ (by norm_num), Int.fdiv_eq_ediv _ (by norm_num)]
  omega

/-- Advancing a datetime by one day keeps its time of day. -/
theorem timeOfDay_addDay (d : PyDateTime) : (d.addSecs 86400).timeOfDay = d.timeOfDay := by
  show (d.wall + 86400) % 86400 = d.wall % 86400
  omega

/-- Claim C1: for every callback and host, Job.run invokes the callback
    with the context built from the job and the host; a raised exception
    is forwarded exactly once to dispatch_error with the job attached and
    never propagates to the caller of run; and on every exit path
    update_persistence runs exactly once. -/
theorem C1_run_error_isolation {P C E : Type} (j : Job P C E) (d : Dispatcher P C E) :
    (j.run d).2 = none ∧
    (j.run d).1.persistence_updates = d.persistence_updates + 1 ∧
    (∀ e : E, j.callback (d.from_job j) = .error e →
      (j.run d).1.errors = d.errors ++ [(e, j)]) ∧
    (∀ u : Unit, j.callback (d.from_job j) = .ok u →
      (j.run d).1.errors = d.errors) := by
  unfold Job.run
  cases hcb : j.callback (d.from_job j) <;>
    simp_all [Dispatcher.update_persistence, Dispatcher.dispatch_error]

/-- Witness for C1 at a concrete failing job and host. -/
theorem C1_run_error_isolation_witness :
    (failJob.run emptyDispatcher).2 = none ∧
    (failJob.run emptyDispatcher).1.persistence_updates = 0 + 1 ∧
    (failJob.run emptyDispatcher).1.errors = [] ++ [(7, failJob)] := by
  have h := C1_run_error_isolation failJob emptyDispatcher
  exact ⟨h.1, h.2.1, h.2.2.1 7 rfl⟩

/-- Claim C5: the resolver maps null to null, and a relative seconds or
    duration input s to now + s read in the queue's configured timezone,
    so the resolved UTC instant minus now is exactly s. -/
theorem C5_relative_inputs (tzq : Tz) (now_utc : Int) :
    (∀ sh : Bool, parse_time_input tzq now_utc none sh = none) ∧
    (∀ (s : Int) (sh : Bool),
      parse_time_input1 tzq now_utc (.secs s) sh = (tz_now tzq now_utc).addSecs s ∧
      (parse_time_input1 tzq now_utc (.secs s) sh).utc - now_utc = s) ∧
    (∀ (s : Int) (sh : Bool),
      parse_time_input1 tzq now_utc (.delta s) sh = (tz_now tzq now_utc).addSecs s ∧
      (parse_time_input1 tzq now_utc (.delta s) sh).utc - now_utc = s) := by
  refine ⟨fun _ => rfl, ?_, ?_⟩ <;> intro s sh <;>
    refine ⟨rfl, ?_⟩ <;>
    simp [parse_time_input1, tz_now, PyDateTime.addSecs, PyDateTime.utc] <;> ring

/-- Claim C4: with handles attached, two jobs are equal exactly when
    their handle ids are equal, whatever their callbacks, contexts and
    names; and the less-than comparison always reports false. -/
theorem C4_eq_by_id_lt_false {P C E : Type} (a b : Job P C E) (ia ib : APSJobH)
    (ha : a.job = some ia) (hb : b.job = some ib) :
    (a.eqExc b = Except.ok true ↔ ia.id = ib.id) ∧ a.ltB b = false := by
  refine ⟨?_, rfl⟩
  unfold Job.eqExc Job.idAttr
  rw [ha, hb]
  simp [Bind.bind, Except.bind, pure, Except.pure]

/-- Witness for C4 at two concrete wrappers around the same handle. -/
theorem C4_eq_by_id_lt_false_witness :
    jobA.eqExc jobB = Except.ok true ∧ jobA.ltB jobB = false := by
  have h := C4_eq_by_id_lt_false jobA jobB { id := 5 } { id := 5 } rfl rfl
  exact ⟨h.1.mpr rfl, h.2⟩

/-- Shifting never changes the tzinfo, and set_enabled never changes the
    removed flag. -/
theorem set_enabled_removed {P C E : Type} (j : Job P C E) (s : Bool)
    (eng : EngineCall → Except String Unit) :
    ((j.set_enabled s eng).1)._removed = j._removed := by
  simp only [Job.set_enabled]
  split
  · rfl
  · split <;> rfl

/-- Lemma: schedule_removal keeps a true removed flag true. -/
theorem schedule_removal_removed {P C E : Type} (j : Job P C E)
    (eng : EngineCall → Except String Unit) (h : j._removed = true) :
    ((j.schedule_removal eng).1)._removed = true := by
  simp only [Job.schedule_removal]
  split
  · exact h
  · split
    · exact h
    · rfl

/-- Lemma: comparing a datetime with itself yields false without raising. -/
theorem pyLt_self (d : PyDateTime) : pyLt d d = Except.ok false := by
  unfold pyLt
  cases d.tzinfo <;> simp

/-- Claim C3: resolving a time-of-day input with shift_if_past combines it
    with today's date in its own timezone if present else the queue's,
    and an instant not strictly after now is advanced exactly one
    calendar day at the same time of day, otherwise returned as combined. -/
theorem C3_time_of_day_shift (tzq : Tz) (now_utc : Int) (t : PyTime) :
    ((specCombinedTod tzq now_utc t).utc ≤ now_utc →
      parse_time_input1 tzq now_utc (.tod t) true
          = (specCombinedTod tzq now_utc t).addSecs 86400 ∧
      (parse_time_input1 tzq now_utc (.tod t) true).dateOf
          = (specCombinedTod tzq now_utc t).dateOf + 1 ∧
      (parse_time_input1 tzq now_utc (.tod t) true).timeOfDay
          = (specCombinedTod tzq now_utc t).timeOfDay) ∧
    (now_utc < (specCombinedTod tzq now_utc t).utc →
      parse_time_input1 tzq now_utc (.tod t) true = specCombinedTod tzq now_utc t) := by
  have hkey : parse_time_input1 tzq now_utc (.tod t) true
      = (if (specCombinedTod tzq now_utc t).utc ≤ now_utc
         then (specCombinedTod tzq now_utc t).addSecs 86400
         else specCombinedTod tzq now_utc t) := by
    cases htz : t.tzinfo <;>
      simp [parse_time_input1, specCombinedTod, htz, PyDateTime.utc, PyDateTime.addSecs]
  constructor
  · intro hle
    rw [hkey, if_pos hle]
    exact ⟨rfl, dateOf_addDay _, timeOfDay_addDay _⟩
  · intro hgt
    rw [hkey, if_neg (not_le.mpr hgt)]

/-- Witness for C3 at a concrete naive time of day already in the past. -/
theorem C3_time_of_day_shift_witness :
    (specCombinedTod 0 50000 { secs := 3600, tzinfo := none }).utc ≤ 50000 ∧
    parse_time_input1 0 50000 (.tod { secs := 3600, tzinfo := none }) true
      = { wall := 90000, tzinfo := some 0 } := by
  have h := C3_time_of_day_shift 0 50000 { secs := 3600, tzinfo := none }
  refine ⟨by decide, ?_⟩
  rw [(h.1 (by decide)).1]
  decide

/-- Claim C7: the removed flag is false at construction, a successful
    schedule_removal issues the engine removal and sets it to true, and
    no sequence of Job operations ever resets it to false. -/
theorem C7_removed_monotonic {P C E : Type}
    (cb : C → Except E Unit) (context : P) (name : Option String)
    (cbName : String) (h0 : Option APSJobH) :
    (Job.init cb context name cbName h0 : Job P C E)._removed = false ∧
    (∀ (j : Job P C E) (h : APSJobH) (engine : EngineCall → Except String Unit),
      j.job = some h → engine (EngineCall.remove h.id) = Except.ok () →
      (j.schedule_removal engine).2.1 = [EngineCall.remove h.id] ∧
      (j.schedule_removal engine).1._removed = true) ∧
    (∀ (j : Job P C E) (ops : List JobOp),
      j._removed = true → (ops.foldl Job.applyOp j)._removed = true) := by
  refine ⟨rfl, ?_, ?_⟩
  · intro j h engine hj he
    simp [Job.schedule_removal, hj, he]
  · intro j ops
    induction ops generalizing j with
    | nil => exact fun h => h
    | cons op rest ih =>
      intro hrm
      refine ih _ ?_
      cases op with
      | setEnabled s eng => rw [Job.applyOp, set_enabled_removed]; exact hrm
      | scheduleRemoval eng => exact schedule_removal_removed j eng hrm

/-- Witness for C7: a successful removal on a concrete job, starting from
    a freshly constructed job whose flag is false. -/
theorem C7_removed_monotonic_witness :
    ((jobA.schedule_removal (fun _ => Except.ok ())).1)._removed = true := by
  have h := C7_removed_monotonic (P := Unit) (C := Unit) (E := Unit)
    (fun _ => Except.ok ()) () (some "a") "cba" none
  exact (h.2.1 jobA { id := 5 } (fun _ => Except.ok ()) rfl rfl).2

/-- Claim C8: the enabled setter asks the engine to resume on true and to
    pause on false, updates the stored flag only after the engine call
    returned, and on engine failure propagates the error with the flag
    keeping its previous value. -/
theorem C8_enabled_setter {P C E : Type} (j : Job P C E) (h : APSJobH) (status : Bool)
    (engine : EngineCall → Except String Unit) (hj : j.job = some h) :
    (j.set_enabled status engine).2.1
        = [if status then EngineCall.resume h.id else EngineCall.pause h.id] ∧
    (engine (if status then EngineCall.resume h.id else EngineCall.pause h.id)
        = Except.ok () →
      (j.set_enabled status engine).1 = { j with _enabled := status } ∧
      (j.set_enabled status engine).2.2 = none) ∧
    (∀ e : String,
      engine (if status then EngineCall.resume h.id else EngineCall.pause h.id)
          = Except.error e →
      (j.set_enabled status engine).1 = j ∧
      (j.set_enabled status engine).2.2 = some e) := by
  cases heng : engine (if status then EngineCall.resume h.id else EngineCall.pause h.id) <;>
    simp_all [Job.set_enabled, hj]

/-- Witness for C8 at a concrete job with a succeeding engine. -/
theorem C8_enabled_setter_witness :
    (jobA.set_enabled true (fun _ => Except.ok ())).1 = { jobA with _enabled := true } ∧
    (jobA.set_enabled true (fun _ => Except.ok ())).2.1 = [EngineCall.resume 5] := by
  have h := C8_enabled_setter jobA { id := 5 } true (fun _ => Except.ok ()) rfl
  exact ⟨(h.2.1 rfl).1, h.1⟩

/-- Claim C9: accessing the dispatcher property fails with the never-set
    error when no reference was stored, fails with the no-longer-alive
    error when the referent is gone, and returns the referent when it is
    alive. -/
theorem C9_dispatcher_access {D : Type} (q : JobQueue D) :
    (q._dispatcher = none →
      q.dispatcher
        = Except.error "RuntimeError: No dispatcher was set for this JobQueue.") ∧
    (∀ r : WeakRef D, q._dispatcher = some r → r.deref = none →
      q.dispatcher
        = Except.error "RuntimeError: The dispatcher instance is no longer alive.") ∧
    (∀ (r : WeakRef D) (d : D), q._dispatcher = some r → r.deref = some d →
      q.dispatcher = Except.ok d) := by
  refine ⟨?_, ?_, ?_⟩
  · intro h1
    simp [JobQueue.dispatcher, h1]
  · intro r h1 h2
    simp [JobQueue.dispatcher, h1, h2]
  · intro r d h1 h2
    simp [JobQueue.dispatcher, h1, h2]

/-- Witness for C9 at concrete queues: never set, and set with a live
    referent. -/
theorem C9_dispatcher_access_witness :
    (JobQueue.dispatcher { tz := 0, _dispatcher := none } : Except String Nat)
        = Except.error "RuntimeError: No dispatcher was set for this JobQueue." ∧
    q0.dispatcher = Except.ok 0 := by
  have h1 := C9_dispatcher_access (D := Nat) { tz := 0, _dispatcher := none }
  have h2 := C9_dispatcher_access q0
  exact ⟨h1.1 rfl, h2.2.2 { deref := some 0 } 0 rfl rfl⟩

/-- Claim C10: schedule_removal issues the engine removal first; on
    engine failure the error propagates to the caller and the removed
    flag keeps its previous value, and only on success does it become
    true. -/
theorem C10_schedule_removal_atomic {P C E : Type} (j : Job P C E) (h : APSJobH)
    (engine : EngineCall → Except String Unit) (hj : j.job = some h) :
    (∀ e : String, engine (EngineCall.remove h.id) = Except.error e →
      (j.schedule_removal engine).1 = j ∧
      (j.schedule_removal engine).1._removed = j._removed ∧
      (j.schedule_removal engine).2.2 = some e) ∧
    (engine (EngineCall.remove h.id) = Except.ok () →
      (j.schedule_removal engine).1 = { j with _removed := true } ∧
      (j.schedule_removal engine).2.2 = none) := by
  cases heng : engine (EngineCall.remove h.id) <;>
    simp_all [Job.schedule_removal, hj]

/-- Witness for C10 at a concrete job with a failing engine: the error
    propagates and the flag stays false. -/
theorem C10_schedule_removal_atomic_witness :
    (jobA.schedule_removal (fun _ => Except.error "boom")).1._removed = false ∧
    (jobA.schedule_removal (fun _ => Except.error "boom")).2.2 = some "boom" := by
  have h := C10_schedule_removal_atomic jobA { id := 5 } (fun _ => Except.error "boom") rfl
  obtain ⟨h1, h2, h3⟩ := h.1 "boom" rfl
  exact ⟨by rw [h2]; rfl, h3⟩

/-- Claim C6: naive instants are interpreted in the queue's configured
    default timezone: a naive time-of-day input is localized to it, an
    absolute datetime input is returned unchanged by the resolver, and
    run_once schedules a datetime under its own timezone when aware and
    under the queue's default timezone when naive. -/
theorem C6_naive_default_tz {D P C E : Type} (q : JobQueue D) (now_utc : Int) (hid : Nat)
    (cb : C → Except E Unit) (cbName : String) (dt : PyDateTime) (context : P)
    (name : Option String) (d : D) (hd : q.dispatcher = Except.ok d) :
    (∀ (s : Nat) (sh : Bool),
      (parse_time_input1 q.tz now_utc (.tod { secs := s, tzinfo := none }) sh).tzinfo
        = some q.tz) ∧
    (∀ sh : Bool, parse_time_input1 q.tz now_utc (.dt dt) sh = dt) ∧
    (∀ (jb : Job P C E) (ent : DateEntry D),
      q.run_once now_utc hid cb cbName (.dt dt) context name = Except.ok (jb, ent) →
      ent.run_date = dt ∧ ent.timezone = dt.tzinfo.getD q.tz ∧
      (dt.tzinfo = none → ent.timezone = q.tz)) := by
  refine ⟨?_, fun _ => rfl, ?_⟩
  · intro s sh
    simp [parse_time_input1, PyDateTime.addSecs]
    split <;> rfl
  · intro jb ent h
    simp only [JobQueue.run_once, hd, Except.ok.injEq, Prod.mk.injEq] at h
    obtain ⟨hjb, hent⟩ := h
    subst hent
    refine ⟨rfl, rfl, fun hn => ?_⟩
    show (parse_time_input1 q.tz now_utc (.dt dt) true).tzinfo.getD q.tz = q.tz
    show dt.tzinfo.getD q.tz = q.tz
    rw [hn]
    rfl

/-- Witness for C6 at a concrete queue with a naive time of day and a
    naive datetime. -/
theorem C6_naive_default_tz_witness :
    (parse_time_input1 q0.tz 0 (.tod { secs := 10, tzinfo := none }) true).tzinfo
        = some q0.tz ∧
    parse_time_input1 q0.tz 0 (.dt { wall := 42, tzinfo := none }) true
        = { wall := 42, tzinfo := none } := by
  have h := C6_naive_default_tz (P := Unit) (C := Unit) (E := Unit) q0 0 1
    (fun _ => Except.ok ()) "cb" { wall := 42, tzinfo := none } () none 0 rfl
  exact ⟨h.1 10 true, h.2.1 true⟩

/-- Claim C2 amended: when both first and last are supplied and resolve,
    a comparable last strictly before first raises the ValueError before
    any job is registered and an equal last succeeds; but when first is
    unspecified (resolving to null) the validation is skipped and the
    call succeeds regardless of last. -/
theorem C2_amended_last_first {D P C E : Type} (q : JobQueue D) (now_utc : Int) (hid : Nat)
    (cb : C → Except E Unit) (cbName : String) (interval : IntervalSpec)
    (first last : Option TimeInput) (context : P) (name : Option String)
    (d : D) (hd : q.dispatcher = Except.ok d) :
    (∀ df dl : PyDateTime,
      parse_time_input q.tz now_utc first false = some df →
      parse_time_input q.tz now_utc last false = some dl →
      (pyLt dl df = Except.ok true →
        q.run_repeating now_utc hid cb cbName interval first last context name
          = Except.error "ValueError: last must not be before first!") ∧
      (pyLt dl df = Except.ok false →
        exceptIsOk
          (q.run_repeating now_utc hid cb cbName interval first last context name)
          = true) ∧
      (dl = df →
        exceptIsOk
          (q.run_repeating now_utc hid cb cbName interval first last context name)
          = true)) ∧
    (first = none →
      exceptIsOk
        (q.run_repeating now_utc hid cb cbName interval first last context name)
        = true) := by
  constructor
  · intro df dl hdf hdl
    refine ⟨?_, ?_, ?_⟩
    · intro hlt
      simp [JobQueue.run_repeating, hdf, hdl, checkLastFirst, hlt]
    · intro hlt
      simp [JobQueue.run_repeating, hdf, hdl, checkLastFirst, hlt, hd, exceptIsOk]
    · intro heq
      subst heq
      simp [JobQueue.run_repeating, hdf, hdl, checkLastFirst, pyLt_self, hd, exceptIsOk]
  · intro hfn
    subst hfn
    cases hl : parse_time_input q.tz now_utc none false with
    | none =>
      cases hll : parse_time_input q.tz now_utc last false <;>
        simp [JobQueue.run_repeating, checkLastFirst, parse_time_input, hll, hd, exceptIsOk]
    | some x =>
      cases hl

/-- Witness for C2 amended, at concrete queues: a strictly earlier last
    raises, an equal last succeeds. -/
theorem C2_amended_last_first_witness :
    (JobQueue.run_repeating (P := Unit) (C := Unit) (E := Unit) q0 0 1
        (fun _ => Except.ok ()) "cb" (.secs 1) (some (.secs 100)) (some (.secs 10)) ()
        none)
      = Except.error "ValueError: last must not be before first!" ∧
    exceptIsOk
      (JobQueue.run_repeating (P := Unit) (C := Unit) (E := Unit) q0 0 1
        (fun _ => Except.ok ()) "cb" (.secs 1) (some (.secs 5)) (some (.secs 5)) ()
        none) = true := by
  have h1 := C2_amended_last_first (P := Unit) (C := Unit) (E := Unit) q0 0 1
    (fun _ => Except.ok ()) "cb" (.secs 1) (some (.secs 100)) (some (.secs 10)) () none 0 rfl
  have h2 := C2_amended_last_first (P := Unit) (C := Unit) (E := Unit) q0 0 1
    (fun _ => Except.ok ()) "cb" (.secs 1) (some (.secs 5)) (some (.secs 5)) () none 0 rfl
  exact ⟨(h1.1 _ _ rfl rfl).1 rfl, (h2.1 _ _ rfl rfl).2.2 rfl⟩

/-- Claim C2 counterexample: with first unspecified (its resolved value
    defaulting to now + interval per the interval trigger) and last
    resolving strictly earlier than that default, run_repeating succeeds
    instead of always raising the configuration error. -/
theorem C2_counterexample :
    pyLt (parse_time_input1 q0.tz 0 (.secs 10) false)
        (resolvedFirstWithDefault q0.tz 0 (.secs 100) none) = Except.ok true ∧
    exceptIsOk
      (JobQueue.run_repeating (P := Unit) (C := Unit) (E := Unit) q0 0 1
        (fun _ => Except.ok ()) "cb" (.secs 100) none (some (.secs 10)) ()
        none) = true := by
  exact ⟨rfl, rfl⟩
